import Mathlib

/-!
Shallow embedding of the scan-orchestration core of the tcpd-diagnostics
repository:

* `src/src/core/result.py`  — `Severity`, `Finding`, `ScanResult`,
  `DiagnosticsReport`
* `src/src/core/scanner.py` — `BaseScanner` (`is_available`, `run`)
* `src/src/core/engine.py`  — `ScanEngine` (`MODES`, `register_scanner`,
  `get_scanners_for_mode`, `run_scan`)

Modelling conventions:

* Wall-clock instants and millisecond durations are `Int` ticks.  Python's
  `time.perf_counter()` / `datetime.now()` readings are supplied as explicit
  parameters (`elapsed`, `start_t`, `end_t`): the embedding is the code with
  the clock made an input.
* A Python exception raised by a concrete scanner's `scan()` body is modelled
  as `Except.error msg` where `msg` is Python's `str(e)` (possibly the empty
  string, as for `raise Exception("")`).  A normal return is `Except.ok r`.
* `_check_dependencies` calls `__import__`; the set of importable modules is
  the environment `Env`.
* The optional `progress_callback` of `run_scan` is modelled by having
  `run_scan` return the list of events that occur: each callback invocation
  becomes an `Event.progress` entry and each `scanner.run()` call an
  `Event.probe_run` entry, in execution order.  This is the trace a supplied
  callback would observe.
* Fields not touched by any orchestration-core behaviour (`raw_data`,
  `details`, `timestamp`, JSON export) are omitted.
-/

deriving instance DecidableEq for Except

namespace TcpdDiagnostics

/-- `Severity` enum of `result.py`. -/
inductive Severity
  | pass
  | info
  | warning
  | critical
  | unknown
deriving DecidableEq, Repr

/-- `Finding` dataclass of `result.py` (minus the open `details` bag). -/
structure Finding where
  title : String
  description : String
  severity : Severity
  category : String
  component : Option String := none
  recommendation : Option String := none
deriving DecidableEq, Repr

/-- `ScanResult` dataclass of `result.py` (minus `raw_data` and `timestamp`). -/
structure ScanResult where
  scanner_name : String
  category : String
  success : Bool
  findings : List Finding := []
  duration_ms : Int := 0
  error : Option String := none
deriving DecidableEq, Repr

/-- `ScanResult.critical_count`: `sum(1 for f in self.findings if f.severity == Severity.CRITICAL)`. -/
def ScanResult.critical_count (r : ScanResult) : Nat :=
  r.findings.countP (fun f => f.severity == Severity.critical)

/-- `ScanResult.warning_count`. -/
def ScanResult.warning_count (r : ScanResult) : Nat :=
  r.findings.countP (fun f => f.severity == Severity.warning)

/-- `ScanResult.pass_count`. -/
def ScanResult.pass_count (r : ScanResult) : Nat :=
  r.findings.countP (fun f => f.severity == Severity.pass)

/-- `DiagnosticsReport` dataclass of `result.py` (minus `system_info`). -/
structure DiagnosticsReport where
  results : List ScanResult := []
  start_time : Int
  end_time : Option Int := none
deriving DecidableEq, Repr

/-- `DiagnosticsReport.add_result`: `self.results.append(result)`. -/
def DiagnosticsReport.add_result (rep : DiagnosticsReport) (r : ScanResult) :
    DiagnosticsReport :=
  { rep with results := rep.results ++ [r] }

/-- `DiagnosticsReport.finalize`: `self.end_time = datetime.now()`, the clock
reading passed explicitly. -/
def DiagnosticsReport.finalize (rep : DiagnosticsReport) (now : Int) :
    DiagnosticsReport :=
  { rep with end_time := some now }

/-- `DiagnosticsReport.total_duration_ms`: `(end_time - start_time)` when
`end_time` is set (a `datetime` is always truthy in Python, `None` falsy),
otherwise `sum(r.duration_ms for r in self.results)`. -/
def DiagnosticsReport.total_duration_ms (rep : DiagnosticsReport) : Int :=
  match rep.end_time with
  | some e => e - rep.start_time
  | none => (rep.results.map (fun r => r.duration_ms)).sum

/-- `DiagnosticsReport.all_findings`. -/
def DiagnosticsReport.all_findings (rep : DiagnosticsReport) : List Finding :=
  (rep.results.map (fun r => r.findings)).flatten

/-- `DiagnosticsReport.critical_count`: `sum(r.critical_count for r in self.results)`. -/
def DiagnosticsReport.critical_count (rep : DiagnosticsReport) : Nat :=
  (rep.results.map ScanResult.critical_count).sum

/-- `DiagnosticsReport.warning_count`. -/
def DiagnosticsReport.warning_count (rep : DiagnosticsReport) : Nat :=
  (rep.results.map ScanResult.warning_count).sum

/-- `DiagnosticsReport.pass_count`. -/
def DiagnosticsReport.pass_count (rep : DiagnosticsReport) : Nat :=
  (rep.results.map ScanResult.pass_count).sum

/-- The runtime environment seen by `_check_dependencies`: the set of module
names `__import__` can resolve. -/
structure Env where
  available_modules : List String
deriving DecidableEq, Repr

/-- A concrete `BaseScanner` subclass of `scanner.py`: the class attributes
plus the overridden `scan()` body.  No scanner in the repository overrides
`is_available` or `run`, so those live below as functions.  `scan` is the
probe's behaviour when invoked: `Except.error msg` models a raised exception
whose `str()` is `msg`. -/
structure Scanner where
  name : String
  category : String
  requires_admin : Bool := false
  dependencies : List String := []
  scan : Except String ScanResult
deriving DecidableEq, Repr

/-- `BaseScanner._check_dependencies`: every declared dependency must import. -/
def Scanner.check_dependencies (s : Scanner) (env : Env) : Bool :=
  s.dependencies.all (fun d => env.available_modules.contains d)

/-- `BaseScanner.is_available`: `False` when `requires_admin and not
self._is_admin`, else `_check_dependencies()`.  `is_admin` is the value
`set_admin_status` installed (the engine's flag). -/
def Scanner.is_available (s : Scanner) (is_admin : Bool) (env : Env) : Bool :=
  if s.requires_admin && !is_admin then false
  else s.check_dependencies env

/-- The fixed error string of the unavailable branch of `BaseScanner.run`. -/
def not_available_error : String :=
  "Scanner not available (missing dependencies or admin rights)"

/-- `BaseScanner.run`: the shared wrapper.  `elapsed` is the wrapper's own
`_elapsed_ms()` measurement at the point the result is built.  The three
branches mirror the source: unavailable → fixed-error result; `scan()`
returned `r` → `r` with its `duration_ms` overwritten; `scan()` raised `e` →
error result carrying `str(e)`. -/
def Scanner.run (s : Scanner) (is_admin : Bool) (env : Env) (elapsed : Int) :
    ScanResult :=
  if !(s.is_available is_admin env) then
    { scanner_name := s.name
      category := s.category
      success := false
      findings := []
      duration_ms := elapsed
      error := some not_available_error }
  else
    match s.scan with
    | Except.ok r => { r with duration_ms := elapsed }
    | Except.error e =>
      { scanner_name := s.name
        category := s.category
        success := false
        findings := []
        duration_ms := elapsed
        error := some e }

/-- `ScanEngine` state: the admin flag and the insertion-ordered dict
`self._scanners` as an association list (unique keys, insertion order). -/
structure ScanEngine where
  is_admin : Bool := false
  scanners : List (String × Scanner) := []
deriving DecidableEq, Repr

/-- The key normalisation of `register_scanner` (and `run_single_scanner`):
`scanner.name.lower().replace(" ", "_")`.  Both steps act character by
character (`str.replace` with a one-character pattern substitutes each
occurrence of that character, and lower-casing never produces or consumes a
space), so the composition is the single character map below. -/
def normalize_key (n : String) : String :=
  String.mk (n.data.map (fun c =>
    let lc := c.toLower
    if lc == ' ' then '_' else lc))

/-- `ScanEngine.register_scanner`: `self._scanners[key] = scanner` on a Python
dict — an existing key is overwritten in place, a new key is appended. -/
def ScanEngine.register_scanner (e : ScanEngine) (s : Scanner) : ScanEngine :=
  let key := normalize_key s.name
  if e.scanners.any (fun p => p.1 == key) then
    { e with scanners := e.scanners.map (fun p => if p.1 == key then (key, s) else p) }
  else
    { e with scanners := e.scanners ++ [(key, s)] }

/-- `ScanEngine.register_scanners`. -/
def ScanEngine.register_scanners (e : ScanEngine) (ss : List Scanner) : ScanEngine :=
  ss.foldl ScanEngine.register_scanner e

/-- `ScanEngine.MODES`: `None` is the "all scanners" sentinel of full mode. -/
def MODES : List (String × Option (List String)) :=
  [ ("quick", some ["cpu", "memory", "disk_usage", "antivirus", "firewall"]),
    ("full", none),
    ("hardware", some ["cpu", "gpu", "memory", "storage", "battery",
      "motherboard", "network_adapters", "peripherals"]),
    ("security", some ["antivirus", "firewall", "windows_update", "ports",
      "processes", "startup", "services", "registry", "users", "bitlocker",
      "secure_boot", "uac", "password_policy", "event_log"]),
    ("network", some ["network_adapters", "connectivity", "wifi", "dns",
      "speed_test"]) ]

/-- `self.MODES.get(mode)`: `none` both when the key is absent (unknown mode)
and when the stored value is the `None` sentinel (full mode). -/
def modes_get (mode : String) : Option (List String) :=
  match MODES.find? (fun p => p.1 == mode) with
  | none => none
  | some p => p.2

/-- `ScanEngine.get_scanners_for_mode`: `allowed is None` → all scanners,
otherwise keep a scanner when its key or its category is in `allowed`,
iterating the dict in insertion order. -/
def ScanEngine.get_scanners_for_mode (e : ScanEngine) (mode : String) :
    List Scanner :=
  match modes_get mode with
  | none => e.scanners.map (fun p => p.2)
  | some allowed =>
    (e.scanners.filter
      (fun p => allowed.contains p.1 || allowed.contains p.2.category)).map
      (fun p => p.2)

/-- One observable step of `run_scan`: a `progress_callback(current, total,
label)` invocation, or a `scanner.run()` call. -/
inductive Event
  | progress (current total : Nat) (label : String)
  | probe_run (scanner_name : String)
deriving DecidableEq, Repr

/-- The `for i, scanner in enumerate(scanners)` loop of `run_scan`: at index
`i` it fires `progress_callback(i, total, scanner.name)`, then runs the
scanner (whose wrapper measurement is `elapsed i`), collecting the results
and the event trace in order. -/
def run_loop (is_admin : Bool) (env : Env) (elapsed : Nat → Int) (total : Nat) :
    List Scanner → Nat → List ScanResult × List Event
  | [], _ => ([], [])
  | s :: rest, i =>
    let r := s.run is_admin env (elapsed i)
    let rec_out := run_loop is_admin env elapsed total rest (i + 1)
    (r :: rec_out.1,
      Event.progress i total s.name :: Event.probe_run s.name :: rec_out.2)

/-- `self._report.add_result(result)` applied along the loop's results. -/
def add_results (rep : DiagnosticsReport) : List ScanResult → DiagnosticsReport
  | [] => rep
  | r :: rs => add_results (rep.add_result r) rs

/-- What one `run_scan` call produces: the returned report and the ordered
trace of callback invocations and probe runs. -/
structure RunOutcome where
  report : DiagnosticsReport
  events : List Event
deriving DecidableEq, Repr

/-- `ScanEngine.run_scan`: fresh report stamped `start_t`, probes resolved via
`get_scanners_for_mode`, the loop, `finalize` stamping `end_t`, then the
terminal `progress_callback(total, total, "Complete")`. -/
def ScanEngine.run_scan (e : ScanEngine) (env : Env) (mode : String)
    (start_t end_t : Int) (elapsed : Nat → Int) : RunOutcome :=
  let scanners := e.get_scanners_for_mode mode
  let total := scanners.length
  let out := run_loop e.is_admin env elapsed total scanners 0
  let rep := (add_results { start_time := start_t } out.1).finalize end_t
  { report := rep
    events := out.2 ++ [Event.progress total total "Complete"] }

/-- The callback invocations of a trace, in order: what a supplied
`progress_callback` observes. -/
def progress_calls (evs : List Event) : List (Nat × Nat × String) :=
  evs.filterMap (fun ev =>
    match ev with
    | Event.progress c t lbl => some (c, t, lbl)
    | Event.probe_run _ => none)

/-!
The concrete scanner set the application registers (`get_all_scanners` in
`src/src/cli/app.py`), in registration order, with each class's `name`,
`category`, `requires_admin` and `dependencies` attributes.  The scanners'
platform-specific `scan()` bodies are outside the orchestration core and are
never inspected by registration or mode selection, so the list is
parametrised by them: `body n` is the behaviour of the scanner named `n`. -/
def shipped_scanners (body : String → Except String ScanResult) : List Scanner :=
  [ { name := "CPU", category := "hardware", dependencies := ["psutil"], scan := body "CPU" },
    { name := "GPU", category := "hardware", scan := body "GPU" },
    { name := "Memory", category := "hardware", dependencies := ["psutil"], scan := body "Memory" },
    { name := "Storage", category := "hardware", dependencies := ["psutil"], scan := body "Storage" },
    { name := "Battery", category := "hardware", dependencies := ["psutil"], scan := body "Battery" },
    { name := "Motherboard", category := "hardware", scan := body "Motherboard" },
    { name := "Network Adapters", category := "hardware", dependencies := ["psutil"], scan := body "Network Adapters" },
    { name := "Peripherals", category := "hardware", scan := body "Peripherals" },
    { name := "Antivirus", category := "security", scan := body "Antivirus" },
    { name := "Firewall", category := "security", scan := body "Firewall" },
    { name := "Windows Update", category := "security", scan := body "Windows Update" },
    { name := "Open Ports", category := "security", dependencies := ["psutil"], scan := body "Open Ports" },
    { name := "Processes", category := "security", dependencies := ["psutil"], scan := body "Processes" },
    { name := "Startup Programs", category := "security", scan := body "Startup Programs" },
    { name := "Services", category := "security", scan := body "Services" },
    { name := "User Accounts", category := "security", scan := body "User Accounts" },
    { name := "BitLocker", category := "security", requires_admin := true, scan := body "BitLocker" },
    { name := "Secure Boot", category := "security", scan := body "Secure Boot" },
    { name := "UAC", category := "security", scan := body "UAC" },
    { name := "Password Policy", category := "security", scan := body "Password Policy" },
    { name := "Event Log", category := "security", requires_admin := true, scan := body "Event Log" },
    { name := "Connectivity", category := "network", scan := body "Connectivity" },
    { name := "WiFi", category := "network", scan := body "WiFi" },
    { name := "DNS", category := "network", scan := body "DNS" },
    { name := "Speed Test", category := "network", scan := body "Speed Test" },
    { name := "OS Info", category := "system", scan := body "OS Info" } ]

/-- The engine as the application builds it: `ScanEngine(is_admin=...)` then
`engine.register_scanners(get_all_scanners())`. -/
def shipped_engine (body : String → Except String ScanResult) (is_admin : Bool) :
    ScanEngine :=
  ScanEngine.register_scanners { is_admin := is_admin } (shipped_scanners body)

/-! ### Concrete fixtures for counterexamples and witnesses -/

/-- An environment with no importable optional modules. -/
def env0 : Env := { available_modules := [] }

/-- A concrete stand-in for the scanners' platform-specific bodies, used to
instantiate `shipped_scanners` in closed computations; registration and mode
selection never inspect it. -/
def default_body : String → Except String ScanResult :=
  fun n => Except.error n

/-- A minimal probe that succeeds with no findings. -/
def probe_a : Scanner :=
  { name := "Probe A", category := "general",
    scan := Except.ok
      { scanner_name := "Probe A", category := "general", success := true } }

/-- A probe whose `scan()` raises an exception whose message is empty
(Python `raise Exception("")`, so `str(e) == ""`). -/
def raising_probe : Scanner :=
  { name := "Raising Probe", category := "general", scan := Except.error "" }

/-- A probe whose `scan()` raises with message `"boom"`. -/
def boom_probe : Scanner :=
  { name := "Boom", category := "general", scan := Except.error "boom" }

/-- A probe that declares `requires_admin = True`. -/
def admin_probe : Scanner :=
  { name := "Admin Probe", category := "security", requires_admin := true,
    scan := Except.ok
      { scanner_name := "Admin Probe", category := "security", success := true } }

/-- A probe whose `scan()` returns normally but self-reports a wildly wrong
duration of 999999 ms. -/
def misreporting_probe : Scanner :=
  { name := "Misreporting Probe", category := "general",
    scan := Except.ok
      { scanner_name := "Misreporting Probe", category := "general",
        success := true, duration_ms := 999999 } }

/-- An engine with a single registered probe. -/
def one_probe_engine : ScanEngine :=
  ScanEngine.register_scanners { is_admin := false } [probe_a]

/-- An engine where the first registered probe raises and the second
succeeds. -/
def two_probe_engine : ScanEngine :=
  ScanEngine.register_scanners { is_admin := false } [boom_probe, probe_a]

/-- A minimal `Finding` at the given severity. -/
def mk_finding (t : String) (sev : Severity) : Finding :=
  { title := t, description := t, severity := sev, category := "general" }

/-- A report containing exactly 2 critical, 3 warning and 5 pass findings,
plus 2 info and 1 unknown findings, spread over two results. -/
def example_report : DiagnosticsReport :=
  { start_time := 0,
    results :=
      [ { scanner_name := "Probe A", category := "general", success := true,
          findings := [mk_finding "c1" Severity.critical,
            mk_finding "w1" Severity.warning, mk_finding "p1" Severity.pass,
            mk_finding "i1" Severity.info, mk_finding "p2" Severity.pass,
            mk_finding "u1" Severity.unknown] },
        { scanner_name := "Probe B", category := "general", success := false,
          findings := [mk_finding "c2" Severity.critical,
            mk_finding "w2" Severity.warning, mk_finding "w3" Severity.warning,
            mk_finding "p3" Severity.pass, mk_finding "i2" Severity.info,
            mk_finding "p4" Severity.pass, mk_finding "p5" Severity.pass] } ] }

/-- A non-finalized report with per-result durations 2 and 3 ms. -/
def unfinalized_report : DiagnosticsReport :=
  { start_time := 3,
    results :=
      [ { scanner_name := "Probe A", category := "general", success := true,
          duration_ms := 2 },
        { scanner_name := "Boom", category := "general", success := false,
          duration_ms := 3 } ] }

/-- The CPU probe as the shipped registry holds it. -/
def cpu_probe : Scanner :=
  { name := "CPU", category := "hardware", dependencies := ["psutil"],
    scan := default_body "CPU" }

/-! ### Structural lemmas about the run loop -/

lemma run_loop_results (a : Bool) (env : Env) (el : Nat → Int) (t : Nat) :
    ∀ (ss : List Scanner) (i : Nat),
      (run_loop a env el t ss i).1
        = (List.enumFrom i ss).map (fun p => p.2.run a env (el p.1))
  | [], _ => rfl
  | s :: rest, i => by
    simp [run_loop, List.enumFrom_cons, run_loop_results a env el t rest (i + 1)]

lemma run_loop_events (a : Bool) (env : Env) (el : Nat → Int) (t : Nat) :
    ∀ (ss : List Scanner) (i : Nat),
      (run_loop a env el t ss i).2
        = ((List.enumFrom i ss).map
            (fun p => [Event.progress p.1 t p.2.name, Event.probe_run p.2.name])).flatten
  | [], _ => rfl
  | s :: rest, i => by
    simp [run_loop, List.enumFrom_cons, run_loop_events a env el t rest (i + 1)]

lemma add_results_spec :
    ∀ (rs : List ScanResult) (rep : DiagnosticsReport),
      add_results rep rs = { rep with results := rep.results ++ rs }
  | [], rep => by simp [add_results]
  | r :: rs, rep => by
    simp [add_results, DiagnosticsReport.add_result, add_results_spec rs]

lemma run_scan_report (e : ScanEngine) (env : Env) (mode : String)
    (st et : Int) (el : Nat → Int) :
    (e.run_scan env mode st et el).report =
      { results := (List.enumFrom 0 (e.get_scanners_for_mode mode)).map
          (fun p => p.2.run e.is_admin env (el p.1))
        start_time := st
        end_time := some et } := by
  simp [ScanEngine.run_scan, run_loop_results, add_results_spec,
    DiagnosticsReport.finalize]

lemma run_scan_events (e : ScanEngine) (env : Env) (mode : String)
    (st et : Int) (el : Nat → Int) :
    (e.run_scan env mode st et el).events =
      ((List.enumFrom 0 (e.get_scanners_for_mode mode)).map
          (fun p => [Event.progress p.1 (e.get_scanners_for_mode mode).length p.2.name,
            Event.probe_run p.2.name])).flatten
        ++ [Event.progress (e.get_scanners_for_mode mode).length
            (e.get_scanners_for_mode mode).length "Complete"] := by
  simp [ScanEngine.run_scan, run_loop_events]

lemma progress_calls_append (a b : List Event) :
    progress_calls (a ++ b) = progress_calls a ++ progress_calls b := by
  simp [progress_calls]

lemma progress_calls_interleaved (t : Nat) :
    ∀ (l : List (Nat × Scanner)),
      progress_calls ((l.map
          (fun p => [Event.progress p.1 t p.2.name, Event.probe_run p.2.name])).flatten)
        = l.map (fun p => (p.1, t, p.2.name))
  | [] => rfl
  | p :: l => by
    rw [List.map_cons, List.flatten_cons, progress_calls_append,
      progress_calls_interleaved t l, List.map_cons]
    rfl

lemma run_scan_results_get (e : ScanEngine) (env : Env) (mode : String)
    (st et : Int) (el : Nat → Int) (j : Nat) :
    (e.run_scan env mode st et el).report.results[j]?
      = ((e.get_scanners_for_mode mode)[j]?).map
          (fun s => s.run e.is_admin env (el j)) := by
  rw [run_scan_report]
  simp only [List.getElem?_map, List.getElem?_enumFrom, Nat.zero_add,
    Option.map_map]
  cases (e.get_scanners_for_mode mode)[j]? <;> rfl

lemma run_scan_results_length (e : ScanEngine) (env : Env) (mode : String)
    (st et : Int) (el : Nat → Int) :
    (e.run_scan env mode st et el).report.results.length
      = (e.get_scanners_for_mode mode).length := by
  rw [run_scan_report]
  simp

lemma run_scan_end_time (e : ScanEngine) (env : Env) (mode : String)
    (st et : Int) (el : Nat → Int) :
    (e.run_scan env mode st et el).report.end_time = some et := by
  rw [run_scan_report]

lemma run_scan_progress_calls (e : ScanEngine) (env : Env) (mode : String)
    (st et : Int) (el : Nat → Int) :
    progress_calls (e.run_scan env mode st et el).events
      = (List.enumFrom 0 (e.get_scanners_for_mode mode)).map
          (fun p => (p.1, (e.get_scanners_for_mode mode).length, p.2.name))
        ++ [((e.get_scanners_for_mode mode).length,
            (e.get_scanners_for_mode mode).length, "Complete")] := by
  rw [run_scan_events, progress_calls_append, progress_calls_interleaved]
  rfl

lemma run_error_of_raise (s : Scanner) (a : Bool) (env : Env) (t : Int)
    (msg : String) (hav : s.is_available a env = true)
    (hraise : s.scan = Except.error msg) :
    s.run a env t
      = { scanner_name := s.name, category := s.category, success := false,
          findings := [], duration_ms := t, error := some msg } := by
  simp [Scanner.run, hav, hraise]

lemma exists_key_of_mem_map_snd {l : List (String × Scanner)} {s : Scanner}
    (h : s ∈ l.map (fun p => p.2)) : ∃ k, (k, s) ∈ l := by
  rcases List.mem_map.mp h with ⟨p, hp, rfl⟩
  exact ⟨p.1, by simpa using hp⟩

lemma get_scanners_sublist (e : ScanEngine) (mode : String) :
    List.Sublist (e.get_scanners_for_mode mode)
      (e.scanners.map (fun p => p.2)) := by
  unfold ScanEngine.get_scanners_for_mode
  cases modes_get mode with
  | none => exact List.Sublist.refl _
  | some allowed => exact (List.filter_sublist e.scanners).map (fun p => p.2)

lemma count_findings_flatten (p : Finding → Bool) :
    ∀ rs : List ScanResult,
      ((rs.map (fun r => r.findings)).flatten).countP p
        = (rs.map (fun r => r.findings.countP p)).sum
  | [] => rfl
  | r :: rs => by
    simp [List.countP_append, count_findings_flatten p rs]

lemma modes_get_unknown (mode : String)
    (h : mode ∉ ["quick", "full", "hardware", "security", "network"]) :
    modes_get mode = none := by
  simp only [List.mem_cons, List.not_mem_nil, or_false, not_or] at h
  obtain ⟨h1, h2, h3, h4, h5⟩ := h
  simp [modes_get, MODES, List.find?_cons, beq_iff_eq,
    Ne.symm h1, Ne.symm h2, Ne.symm h3, Ne.symm h4, Ne.symm h5]

/-! ### Claims -/

/-- C1, counterexample: with one registered probe, `runScan` on the
unrecognized mode name `"totally-unknown-mode"` does NOT select zero probes —
`MODES.get(mode)` returns the same `None` that marks full mode, so every
registered probe runs.  The claim's "empty results list" is false here: the
result list has one entry, not zero (and the callback fires twice, not
once). -/
theorem c1_counterexample :
    ¬ ((one_probe_engine.run_scan env0 "totally-unknown-mode" 0 7
          (fun _ => 3)).report.results = []
        ∧ progress_calls (one_probe_engine.run_scan env0 "totally-unknown-mode"
            0 7 (fun _ => 3)).events = [(0, 0, "Complete")]) := by
  decide

/-- C1 (amended): for every registered probe set, calling `run_scan` with an
unrecognized mode name (any string not in
quick/full/hardware/security/network) selects ALL registered probes — exactly
as full mode does — and returns a finalized report with one result per
registered probe; the progress callback is invoked `N+1` times, ending with
`(N, N, "Complete")` where `N` is the number of registered probes, and no
exception is raised (`run_scan` is total). -/
theorem c1_unknown_mode_selects_all (e : ScanEngine) (env : Env)
    (mode : String) (st et : Int) (el : Nat → Int)
    (h : mode ∉ ["quick", "full", "hardware", "security", "network"]) :
    e.get_scanners_for_mode mode = e.scanners.map (fun p => p.2)
    ∧ (e.run_scan env mode st et el).report.results.length = e.scanners.length
    ∧ (e.run_scan env mode st et el).report.end_time = some et
    ∧ progress_calls (e.run_scan env mode st et el).events
        = (List.enumFrom 0 (e.get_scanners_for_mode mode)).map
            (fun p => (p.1, e.scanners.length, p.2.name))
          ++ [(e.scanners.length, e.scanners.length, "Complete")] := by
  have hsel : e.get_scanners_for_mode mode = e.scanners.map (fun p => p.2) := by
    simp [ScanEngine.get_scanners_for_mode, modes_get_unknown mode h]
  have hlen : (e.get_scanners_for_mode mode).length = e.scanners.length := by
    rw [hsel]; simp
  refine ⟨hsel, ?_, run_scan_end_time e env mode st et el, ?_⟩
  · rw [run_scan_results_length, hlen]
  · rw [run_scan_progress_calls, hlen]

/-- C1, witness: the amended statement at the one-probe engine and mode
`"totally-unknown-mode"` — the single registered probe is selected and
produces the single result, and the callback trace is
`[(0, 1, "Probe A"), (1, 1, "Complete")]`. -/
theorem c1_witness :
    "totally-unknown-mode" ∉ ["quick", "full", "hardware", "security", "network"]
    ∧ (one_probe_engine.run_scan env0 "totally-unknown-mode" 0 7
        (fun _ => 3)).report.results.length = 1 := by
  refine ⟨by decide, ?_⟩
  exact (c1_unknown_mode_selects_all one_probe_engine env0 "totally-unknown-mode"
    0 7 (fun _ => 3) (by decide)).2.1

/-- C2: for every mode and registered probe set, after `run_scan` the
report's results list has exactly one `ScanResult` per probe returned by
`get_scanners_for_mode`, in the same order: the list lengths agree, and the
`i`-th result is exactly what running the `i`-th selected probe produces —
no selected probe is dropped, whether it was unavailable, succeeded, or
raised. -/
theorem c2_one_result_per_selected_probe (e : ScanEngine) (env : Env)
    (mode : String) (st et : Int) (el : Nat → Int) :
    (e.run_scan env mode st et el).report.results.length
        = (e.get_scanners_for_mode mode).length
    ∧ ∀ i : Nat,
        (e.run_scan env mode st et el).report.results[i]?
          = ((e.get_scanners_for_mode mode)[i]?).map
              (fun s => s.run e.is_admin env (el i)) :=
  ⟨run_scan_results_length e env mode st et el,
    fun i => run_scan_results_get e env mode st et el i⟩

/-- C3, counterexample: `run` converts a raised fault into a result whose
`error` is exactly the fault's message, and Python exception messages can be
empty (`raise Exception("")` gives `str(e) == ""`).  For `raising_probe`,
whose `scan()` raises with message `""`, the stored error is `some ""` — so
the claim's "non-empty error" is false at this input. -/
theorem c3_counterexample :
    ¬ (∀ msg : String,
        (raising_probe.run false env0 4).error = some msg → msg ≠ "") := by
  intro h
  exact h "" (by decide) rfl

/-- C3 (amended): for every probe whose `scan()` raises, `run` does not
propagate the exception (it is a total function into `ScanResult`): within a
`run_scan`, the raising probe's slot holds a result with `success = false`
and `error` equal to the fault's message (hence non-empty whenever the
message is non-empty), every other selected probe still contributes its own
result in order, and the report is still finalized. -/
theorem c3_fault_contained (e : ScanEngine) (env : Env) (mode : String)
    (st et : Int) (el : Nat → Int) (i : Nat) (s : Scanner) (msg : String)
    (hs : (e.get_scanners_for_mode mode)[i]? = some s)
    (hraise : s.scan = Except.error msg)
    (hav : s.is_available e.is_admin env = true) :
    (e.run_scan env mode st et el).report.results[i]?
        = some { scanner_name := s.name, category := s.category,
                 success := false, findings := [], duration_ms := el i,
                 error := some msg }
    ∧ (e.run_scan env mode st et el).report.results.length
        = (e.get_scanners_for_mode mode).length
    ∧ (∀ j : Nat, (e.run_scan env mode st et el).report.results[j]?
        = ((e.get_scanners_for_mode mode)[j]?).map
            (fun s2 => s2.run e.is_admin env (el j)))
    ∧ (e.run_scan env mode st et el).report.end_time = some et := by
  refine ⟨?_, run_scan_results_length e env mode st et el,
    fun j => run_scan_results_get e env mode st et el j,
    run_scan_end_time e env mode st et el⟩
  rw [run_scan_results_get e env mode st et el i, hs]
  simp [run_error_of_raise s e.is_admin env (el i) msg hav hraise]

/-- C3, witness: in `two_probe_engine` (a raising probe followed by a
succeeding one) under full mode, slot 0 holds the fault result with
`error = some "boom"`, slot 1 holds the second probe's own result, and the
report is finalized. -/
theorem c3_witness :
    (two_probe_engine.run_scan env0 "full" 0 9 (fun j => (j : Int))).report.results[0]?
        = some { scanner_name := "Boom", category := "general",
                 success := false, findings := [], duration_ms := 0,
                 error := some "boom" }
    ∧ (two_probe_engine.run_scan env0 "full" 0 9
        (fun j => (j : Int))).report.results.length = 2
    ∧ (two_probe_engine.run_scan env0 "full" 0 9 (fun j => (j : Int))).report.results[1]?
        = ((two_probe_engine.get_scanners_for_mode "full")[1]?).map
            (fun s2 => s2.run false env0 1)
    ∧ (two_probe_engine.run_scan env0 "full" 0 9
        (fun j => (j : Int))).report.end_time = some 9 := by
  have h := c3_fault_contained two_probe_engine env0 "full" 0 9
    (fun j => (j : Int)) 0 boom_probe "boom" (by decide) rfl (by decide)
  exact ⟨h.1, h.2.1, h.2.2.1 1, h.2.2.2⟩

/-- C4: a probe with `requires_admin = true` run with `is_admin = false` (the
flag an Orchestrator constructed with `is_admin=False` installs into every
probe) yields `success = false`, zero findings and the fixed "not available"
error; and the outcome is identical whatever the probe's `scan()` body is —
`execute()` is never invoked. -/
theorem c4_admin_gate (s : Scanner) (env : Env) (t : Int)
    (h : s.requires_admin = true) :
    s.run false env t
        = { scanner_name := s.name, category := s.category, success := false,
            findings := [], duration_ms := t,
            error := some not_available_error }
    ∧ ∀ body : Except String ScanResult,
        Scanner.run { s with scan := body } false env t = s.run false env t := by
  have hav : s.is_available false env = false := by
    simp [Scanner.is_available, h]
  have hav2 : ∀ body : Except String ScanResult,
      ({ s with scan := body } : Scanner).is_available false env = false := by
    intro body
    simp [Scanner.is_available, h]
  constructor
  · simp [Scanner.run, hav]
  · intro body
    simp [Scanner.run, hav, hav2 body]

/-- C4, witness: `admin_probe` (which declares `requires_admin = true` and
whose `scan()` would succeed) run non-privileged returns the fixed
unavailable result, and replacing its body by a raising one changes
nothing. -/
theorem c4_witness :
    admin_probe.requires_admin = true
    ∧ admin_probe.run false env0 5
        = { scanner_name := "Admin Probe", category := "security",
            success := false, findings := [], duration_ms := 5,
            error := some not_available_error }
    ∧ Scanner.run { admin_probe with scan := Except.error "ignored" } false env0 5
        = admin_probe.run false env0 5 :=
  ⟨rfl, (c4_admin_gate admin_probe env0 5 rfl).1,
    (c4_admin_gate admin_probe env0 5 rfl).2 (Except.error "ignored")⟩

/-- C5: across one `run_scan` with `N` selected probes, the event trace is
exactly `progress(0,N,name₀), run₀, progress(1,N,name₁), run₁, …,
progress(N-1,N,name_{N-1}), run_{N-1}, progress(N,N,"Complete")`: the
callback fires exactly `N+1` times, each `progress(i,N,nameᵢ)` immediately
precedes (never follows) probe `i`'s run, `current` is strictly increasing
`0..N`, and `total = N` on every call. -/
theorem c5_progress_protocol (e : ScanEngine) (env : Env) (mode : String)
    (st et : Int) (el : Nat → Int) :
    (e.run_scan env mode st et el).events
        = ((List.enumFrom 0 (e.get_scanners_for_mode mode)).map
            (fun p => [Event.progress p.1
                (e.get_scanners_for_mode mode).length p.2.name,
              Event.probe_run p.2.name])).flatten
          ++ [Event.progress (e.get_scanners_for_mode mode).length
              (e.get_scanners_for_mode mode).length "Complete"]
    ∧ progress_calls (e.run_scan env mode st et el).events
        = (List.enumFrom 0 (e.get_scanners_for_mode mode)).map
            (fun p => (p.1, (e.get_scanners_for_mode mode).length, p.2.name))
          ++ [((e.get_scanners_for_mode mode).length,
              (e.get_scanners_for_mode mode).length, "Complete")]
    ∧ (progress_calls (e.run_scan env mode st et el).events).length
        = (e.get_scanners_for_mode mode).length + 1 := by
  refine ⟨run_scan_events e env mode st et el,
    run_scan_progress_calls e env mode st et el, ?_⟩
  rw [run_scan_progress_calls e env mode st et el]
  simp

/-- C6: when a probe's `scan()` returns normally, the stored result is the
probe's result with `duration_ms` overwritten by the wrapper's own elapsed
measurement `t` — whatever `duration_ms` the probe itself set (it is
universally quantified away in `r`). -/
theorem c6_duration_overwritten (s : Scanner) (a : Bool) (env : Env) (t : Int)
    (r : ScanResult) (hok : s.scan = Except.ok r)
    (hav : s.is_available a env = true) :
    s.run a env t = { r with duration_ms := t }
    ∧ (s.run a env t).duration_ms = t := by
  have h1 : s.run a env t = { r with duration_ms := t } := by
    simp [Scanner.run, hav, hok]
  exact ⟨h1, by rw [h1]⟩

/-- C6, witness: `misreporting_probe` self-reports 999999 ms, yet the wrapper
records its own measurement (5 ms here). -/
theorem c6_witness :
    (misreporting_probe.run false env0 5).duration_ms = 5
    ∧ misreporting_probe.scan
        = Except.ok { scanner_name := "Misreporting Probe",
                      category := "general", success := true,
                      duration_ms := 999999 } :=
  ⟨(c6_duration_overwritten misreporting_probe false env0 5
      { scanner_name := "Misreporting Probe", category := "general",
        success := true, duration_ms := 999999 } rfl rfl).2, rfl⟩

/-- C7: for a mode with an explicit allow-list, a probe registered under its
normalized key is selected iff that key or its category string appears in the
allow-list, and the selection is a sublist of the registration sequence — so
iteration follows registration (insertion) order, not the allow-list's order.
The hypothesis `hw` states the registry invariant that `register_scanner`
establishes: every stored key is the normalized name of its scanner. -/
theorem c7_allow_list_selection (e : ScanEngine) (mode : String)
    (allowed : List String) (hm : modes_get mode = some allowed)
    (hw : ∀ p ∈ e.scanners, p.1 = normalize_key p.2.name) :
    (∀ s : Scanner, s ∈ e.get_scanners_for_mode mode ↔
        ((normalize_key s.name, s) ∈ e.scanners
          ∧ (normalize_key s.name ∈ allowed ∨ s.category ∈ allowed)))
    ∧ List.Sublist (e.get_scanners_for_mode mode)
        (e.scanners.map (fun p => p.2)) := by
  have hsel : e.get_scanners_for_mode mode
      = (e.scanners.filter
          (fun p => allowed.contains p.1 || allowed.contains p.2.category)).map
          (fun p => p.2) := by
    simp [ScanEngine.get_scanners_for_mode, hm]
  refine ⟨?_, get_scanners_sublist e mode⟩
  intro s
  rw [hsel]
  constructor
  · intro hmem
    rcases List.mem_map.mp hmem with ⟨p, hp, rfl⟩
    have hfil := List.mem_filter.mp hp
    have hkey := hw p hfil.1
    have hcond := hfil.2
    simp only [Bool.or_eq_true, List.elem_iff] at hcond
    refine ⟨?_, ?_⟩
    · have hps : (p.1, p.2) ∈ e.scanners := by simpa using hfil.1
      rw [← hkey]
      exact hps
    · rw [← hkey]
      exact hcond
  · rintro ⟨hmem, hcond⟩
    refine List.mem_map.mpr ⟨(normalize_key s.name, s),
      List.mem_filter.mpr ⟨hmem, ?_⟩, rfl⟩
    simp only [Bool.or_eq_true, List.elem_iff]
    exact hcond

/-- C7, witness: for the shipped registry and network mode, the selection is
a sublist of the registration sequence, and the Network Adapters probe (a
hardware-category probe whose normalized key `network_adapters` is in the
allow-list) is selected. -/
theorem c7_witness :
    List.Sublist ((shipped_engine default_body false).get_scanners_for_mode
        "network")
      ((shipped_engine default_body false).scanners.map (fun p => p.2)) :=
  (c7_allow_list_selection (shipped_engine default_body false) "network"
    ["network_adapters", "connectivity", "wifi", "dns", "speed_test"]
    (by decide) (by decide)).2

/-- C8: a report's critical/warning/pass counts are exactly the number of
findings of that precise severity across all contained results (so info and
unknown findings affect none of the three); in particular `example_report`,
which holds exactly 2 critical, 3 warning and 5 pass findings among info and
unknown ones, counts (2, 3, 5). -/
theorem c8_severity_aggregation (rep : DiagnosticsReport) :
    (rep.critical_count
        = rep.all_findings.countP (fun f => f.severity == Severity.critical)
      ∧ rep.warning_count
        = rep.all_findings.countP (fun f => f.severity == Severity.warning)
      ∧ rep.pass_count
        = rep.all_findings.countP (fun f => f.severity == Severity.pass))
    ∧ (example_report.critical_count = 2
      ∧ example_report.warning_count = 3
      ∧ example_report.pass_count = 5) := by
  refine ⟨⟨?_, ?_, ?_⟩, by decide, by decide, by decide⟩
  · simp only [DiagnosticsReport.critical_count, DiagnosticsReport.all_findings,
      count_findings_flatten]
    rfl
  · simp only [DiagnosticsReport.warning_count, DiagnosticsReport.all_findings,
      count_findings_flatten]
    rfl
  · simp only [DiagnosticsReport.pass_count, DiagnosticsReport.all_findings,
      count_findings_flatten]
    rfl

/-- C9: `total_duration_ms` is `end_time - start_time` once the report is
finalized (`end_time` present — equivalently after `finalize`), and the sum
of the contained results' `duration_ms` values while it is not; in
particular the report `run_scan` returns measures `et - st`. -/
theorem c9_total_duration (rep : DiagnosticsReport) (u : Int) (e : ScanEngine)
    (env : Env) (mode : String) (st et : Int) (el : Nat → Int) :
    (rep.end_time = some u → rep.total_duration_ms = u - rep.start_time)
    ∧ (rep.end_time = none →
        rep.total_duration_ms = (rep.results.map (fun r => r.duration_ms)).sum)
    ∧ (rep.finalize u).total_duration_ms = u - rep.start_time
    ∧ (e.run_scan env mode st et el).report.total_duration_ms = et - st := by
  refine ⟨fun h => by simp [DiagnosticsReport.total_duration_ms, h],
    fun h => by simp [DiagnosticsReport.total_duration_ms, h],
    by simp [DiagnosticsReport.finalize, DiagnosticsReport.total_duration_ms],
    ?_⟩
  rw [run_scan_report]
  simp [DiagnosticsReport.total_duration_ms]

/-- C9, witness: finalizing `unfinalized_report` at time 10 gives duration
`10 - 3`, while unfinalized it reports the durations' sum `2 + 3`. -/
theorem c9_witness :
    (unfinalized_report.finalize 10).end_time = some 10
    ∧ (unfinalized_report.finalize 10).total_duration_ms = 10 - 3
    ∧ unfinalized_report.end_time = none
    ∧ unfinalized_report.total_duration_ms
        = (unfinalized_report.results.map (fun r => r.duration_ms)).sum := by
  refine ⟨rfl, ?_, rfl, ?_⟩
  · exact (c9_total_duration (unfinalized_report.finalize 10) 10 one_probe_engine
      env0 "quick" 0 0 (fun _ => 0)).1 rfl
  · exact (c9_total_duration unfinalized_report 10 one_probe_engine env0 "quick"
      0 0 (fun _ => 0)).2.1 rfl

/-- C10: mode selection only ever returns registered probes (every selected
probe sits in the registry under some key), and on the shipped registry
allow-list entries matching no registered key and no category are silently
ignored: quick mode — whose allow-list also names `disk_usage`, which no
shipped scanner normalizes to — selects exactly CPU, Memory, Antivirus and
Firewall, and security mode — whose allow-list also names `registry` (and
`ports`, `startup`, `users`, which match no normalized key either) — selects
exactly the ten probes listed, with no placeholder or error entry for the
unmatched names. -/
theorem c10_only_registered_probes :
    (∀ (e : ScanEngine) (mode : String) (s : Scanner),
        s ∈ e.get_scanners_for_mode mode → ∃ k, (k, s) ∈ e.scanners)
    ∧ ((shipped_engine default_body false).get_scanners_for_mode "quick").map
        Scanner.name = ["CPU", "Memory", "Antivirus", "Firewall"]
    ∧ ((shipped_engine default_body false).get_scanners_for_mode
        "security").map Scanner.name
        = ["Antivirus", "Firewall", "Windows Update", "Processes", "Services",
           "BitLocker", "Secure Boot", "UAC", "Password Policy", "Event Log"] := by
  refine ⟨?_, by decide, by decide⟩
  intro e mode s hs
  exact exists_key_of_mem_map_snd ((get_scanners_sublist e mode).mem hs)

/-- C10, witness: the CPU probe selected by quick mode is indeed registered
in the shipped registry under some key. -/
theorem c10_witness :
    ∃ k, (k, cpu_probe) ∈ (shipped_engine default_body false).scanners :=
  c10_only_registered_probes.1 (shipped_engine default_body false) "quick"
    cpu_probe (by decide)

end TcpdDiagnostics
